import Mathlib

/-!
# Verification of the Authl authentication broker core

A shallow embedding of the parts of Authl (`authl/tokens.py`,
`authl/disposition.py`, `authl/webfinger.py`, `authl/handlers/indieauth.py`,
`authl/handlers/fediverse.py`, `authl/handlers/email_addr.py`) that the
behavioural claims about the library refer to, together with proofs.

Network collaborators (HTTP fetches, endpoint discovery, the
`urllib.parse`/`validate_email`/`itsdangerous` library functions) are
modelled as explicit oracle parameters; handler state (the token stores,
the email pending map) is passed explicitly; Python exceptions that a
handler catches become `Option`/branching, while exceptions that escape a
handler's public method become the `Except.error` case of the result.
-/

set_option autoImplicit false

namespace Authl

/-- A Python dict used as a string-keyed map (first entry with the key wins,
which matches dict semantics since insertion prepends and removal deletes
every entry for the key). -/
abbrev Store (V : Type) := List (String × V)

/-- `store[key]` lookup (`DictStore.get` without the `to_type` coercion,
which is the identity for the tuple-typed values the handlers store). -/
def storeGet {V : Type} : Store V → String → Option V
  | [], _ => none
  | (k', v) :: rest, k => if k' = k then some v else storeGet rest k

/-- `DictStore.remove`: `del store[key]` with `KeyError` swallowed. -/
def storeRemove {V : Type} : Store V → String → Store V
  | [], _ => []
  | (k', v) :: rest, k =>
      if k' = k then storeRemove rest k else (k', v) :: storeRemove rest k

/-- `TokenStore.pop` for a dict-backed store: `get` in a `try`, `remove` in
the `finally`, so removal happens whether or not the `get` succeeded. -/
def storePop {V : Type} (s : Store V) (k : String) : Option V × Store V :=
  (storeGet s k, storeRemove s k)

/-- `DictStore.put`: generate a key from the value and assign into the dict. -/
def storePut {V : Type} (keygen : V → String) (s : Store V) (v : V) :
    String × Store V :=
  (keygen v, (keygen v, v) :: s)

theorem storeGet_remove_self {V : Type} (s : Store V) (k : String) :
    storeGet (storeRemove s k) k = none := by
  induction s with
  | nil => rfl
  | cons p rest ih =>
      obtain ⟨k', v⟩ := p
      by_cases h : k' = k
      · simp [storeRemove, h, ih]
      · simp [storeRemove, storeGet, h, ih]

theorem storeRemove_absent {V : Type} (s : Store V) (k : String)
    (h : storeGet s k = none) : storeRemove s k = s := by
  induction s with
  | nil => rfl
  | cons p rest ih =>
      obtain ⟨k', v⟩ := p
      by_cases hk : k' = k
      · simp [storeGet, hk] at h
      · simp [storeGet, hk] at h
        simp [storeRemove, hk, ih h]

/-- `authl.disposition`: the tagged union every handshake step returns.
`Error.redir` is `Option String` because the handlers sometimes pass
Python `None` and sometimes `''`. Profiles are string-keyed maps. -/
inductive Disposition where
  | redirect (url : String)
  | verified (identity : String) (redir : String)
      (profile : List (String × String))
  | notify (cdata : String)
  | error (message : String) (redir : Option String)
  | needsPost (url : String) (message : String)
      (data : List (String × String))
deriving DecidableEq, Repr

/-- `s` occurs as a contiguous substring of `t`. -/
def substringOf (s t : String) : Prop := ∃ p q, t = p ++ s ++ q

/-! ## IndieAuth endpoint discovery and `verify_id`

`find_endpoint(url)` performs network discovery (cached); we model its
outcome as an oracle giving, for each identity URL, the discovered
`authorization_endpoint` (if any) and the canonical profile URL. -/

/-- Oracle for `authl.handlers.indieauth.find_endpoint(id_url)`:
returns `(endpoints.get('authorization_endpoint'), profile)`. -/
structure DiscEnv where
  findEndpoint : String → Option String × String

/-- `authl.handlers.indieauth.verify_id(request_id, response_id)`:
exact match passes; otherwise the response must declare the same
`authorization_endpoint` as the request, and the response's discovered
profile URL is returned. `ValueError` is the `Except.error` case. -/
def verify_id (env : DiscEnv) (request_id response_id : String) :
    Except String String :=
  if request_id = response_id then .ok response_id
  else
    let req := env.findEndpoint request_id
    let resp := env.findEndpoint response_id
    match resp.1 with
    | none => .error ("Profile " ++ resp.2 ++ " missing IndieAuth endpoint")
    | some re =>
        if req.1 = some re then .ok resp.2
        else .error ("Authorization endpoint mismatch for " ++ request_id ++
          " and " ++ response_id)

/-- A discovery world in which no page declares any IndieAuth endpoint. -/
def discNone : DiscEnv := ⟨fun u => (none, u)⟩

/-- A discovery world in which every page declares the same endpoint. -/
def discConst : DiscEnv := ⟨fun u => (some "https://auth.example/endpoint", u)⟩

instance {ε α : Type} [DecidableEq ε] [DecidableEq α] : DecidableEq (Except ε α) :=
  fun a b =>
    match a, b with
    | .ok x, .ok y => if h : x = y then .isTrue (by simp [h]) else .isFalse (by simp [h])
    | .error x, .error y => if h : x = y then .isTrue (by simp [h]) else .isFalse (by simp [h])
    | .ok _, .error _ => .isFalse (by simp)
    | .error _, .ok _ => .isFalse (by simp)

/-- C1 counterexample: with two distinct identity URLs neither of which
declares an `authorization_endpoint`, the discovered endpoints are equal
(both absent), yet `verify_id` raises `ValueError` instead of succeeding,
because it unconditionally requires the response to declare an endpoint. -/
theorem verify_id_equal_endpoints_counterexample :
    ("https://a.example/" : String) ≠ "https://b.example/"
    ∧ (discNone.findEndpoint "https://a.example/").1
        = (discNone.findEndpoint "https://b.example/").1
    ∧ verify_id discNone "https://a.example/" "https://b.example/"
        = .error "Profile https://b.example/ missing IndieAuth endpoint" :=
  ⟨by decide, rfl, by decide⟩

/-- C1 (amended): `verify_id A A = A` always; for `A ≠ B`, `verify_id A B`
succeeds iff B's discovered `authorization_endpoint` exists and equals A's
discovered endpoint (the URLs' domains/schemes play no role), in which case
it returns B's discovered profile URL; otherwise it raises `ValueError`. -/
theorem verify_id_endpoint_equivalence (env : DiscEnv) (A B : String)
    (hne : A ≠ B) :
    verify_id env A A = .ok A
    ∧ ((∃ r, verify_id env A B = .ok r) ↔
        ∃ e, (env.findEndpoint B).1 = some e ∧ (env.findEndpoint A).1 = some e)
    ∧ (∀ r, verify_id env A B = .ok r → r = (env.findEndpoint B).2) := by
  refine ⟨by simp [verify_id], ?_, ?_⟩
  · unfold verify_id
    rw [if_neg hne]
    cases hB : (env.findEndpoint B).1 with
    | none => simp [hB]
    | some e =>
        by_cases hA : (env.findEndpoint A).1 = some e
        · simp [hB, hA]
        · simp only [hB]
          rw [if_neg hA]
          constructor
          · rintro ⟨r, hr⟩
            exact absurd hr (by simp)
          · rintro ⟨e', he', hA'⟩
            exact absurd hA' (by simpa [Option.some_inj.mp he'] using hA)
  · intro r hr
    unfold verify_id at hr
    rw [if_neg hne] at hr
    cases hB : (env.findEndpoint B).1 with
    | none => simp [hB] at hr
    | some e =>
        simp only [hB] at hr
        by_cases hA : (env.findEndpoint A).1 = some e
        · rw [if_pos hA] at hr
          exact (Except.ok.injEq _ _ ▸ hr).symm ▸ rfl
        · rw [if_neg hA] at hr
          exact absurd hr (by simp)

/-- C1 witness: in a world where both pages declare the same endpoint,
the self-case returns the identity and the cross-domain case succeeds. -/
theorem verify_id_endpoint_equivalence_witness :
    verify_id discConst "https://a.example/" "https://a.example/"
      = .ok "https://a.example/"
    ∧ (∃ r, verify_id discConst "https://a.example/" "https://b.example/"
        = .ok r) :=
  ⟨(verify_id_endpoint_equivalence discConst "https://a.example/"
      "https://b.example/" (by decide)).1,
   ((verify_id_endpoint_equivalence discConst "https://a.example/"
      "https://b.example/" (by decide)).2.1).2
     ⟨"https://auth.example/endpoint", rfl, rfl⟩⟩

/-! ## IndieAuth handler (`authl/handlers/indieauth.py`) -/

/-- A Python exception escaping a handler method. `connectionError` stands
for the `requests` connection/timeout exception family; `jsonError` for the
`ValueError` of `Response.json()` on a non-JSON body where uncaught. -/
inductive PyExc where
  | connectionError
  | jsonError
deriving DecidableEq, Repr

/-- Outcome of an HTTP request made by a handler: either the `requests`
call raised, or it returned a status code and a body whose JSON decode is
`some` parsed value or `none` (invalid JSON). -/
inductive HttpResult (β : Type) where
  | netFail
  | resp (status : Nat) (body : Option β)
deriving DecidableEq

/-- JSON body returned by an IndieAuth authorization endpoint on the code
exchange: an optional `me` member and an optional `profile` member. -/
structure IAResponse where
  me : Option String
  profile : Option (List (String × String))
deriving DecidableEq, Repr

/-- `IndieAuth.__init__` configuration after construction. -/
structure IACfg where
  clientId : String
  timeout : Nat
deriving DecidableEq, Repr

/-- The value stored in the token store by `IndieAuth.initiate_auth`:
`(id_url, endpoint, callback_uri, verifier, time.time(), redir)`. -/
structure IAToken where
  idUrl : String
  endpoint : String
  callbackUri : String
  verifier : String
  issuedAt : Nat
  redir : String
deriving DecidableEq, Repr

/-- External collaborators of `IndieAuth.check_callback`: endpoint
discovery, the code-exchange POST (keyed by endpoint, code, client_id,
redirect_uri and code_verifier), and `get_profile`. -/
structure IAEnv where
  disc : DiscEnv
  tokenExchange : String → String → String → String → String →
    HttpResult IAResponse
  getProfile : String → Option (List (String × String)) →
    List (String × String)

/-- The `try` block of `IndieAuth.check_callback`: evaluate `get['code']`
(`KeyError` caught at the bottom of the method), POST to the endpoint
(`requests` exceptions are NOT caught and escape), then check status,
JSON validity, `response['me']` and `verify_id` (whose `ValueError` is
caught at the bottom of the method). -/
def IA.exchange (cfg : IACfg) (env : IAEnv) (get : Store String)
    (tok : IAToken) : Except PyExc Disposition :=
  match storeGet get "code" with
  | none => .ok (.error "Missing 'code'" (some tok.redir))
  | some code =>
      match env.tokenExchange tok.endpoint code cfg.clientId
          tok.callbackUri tok.verifier with
      | .netFail => .error .connectionError
      | .resp status body =>
          if status ≠ 200 then
            .ok (.error ("Authorization endpoint returned " ++
              toString status) (some tok.redir))
          else
            match body with
            | none => .ok (.error "Got invalid response JSON" (some tok.redir))
            | some response =>
                match response.me with
                | none => .ok (.error "Missing 'me'" (some tok.redir))
                | some me =>
                    match verify_id env.disc tok.idUrl me with
                    | .error msg => .ok (.error msg (some tok.redir))
                    | .ok rid =>
                        .ok (.verified rid tok.redir
                          (env.getProfile rid response.profile))

/-- `IndieAuth.check_callback(url, get, data)` over a dict-backed token
store (the only supported kind, see `IndieAuth.__init__`). The result is
`Except.error` when a Python exception escapes the method, else the
disposition together with the token store after the call. -/
def IA.checkCallback (cfg : IACfg) (env : IAEnv) (now : Nat)
    (get : Store String) (st : Store IAToken) :
    Except PyExc (Disposition × Store IAToken) :=
  match storeGet get "state" with
  | none => .ok (.error "No transaction provided" (some ""), st)
  | some state =>
      if state = "" then .ok (.error "No transaction provided" (some ""), st)
      else
      match storePop st state with
      | (none, st') => .ok (.error "Invalid token" (some ""), st')
      | (some tok, st') =>
          if tok.issuedAt + cfg.timeout < now then
            .ok (.error "Transaction timed out" (some tok.redir), st')
          else
            (IA.exchange cfg env get tok).map (fun d => (d, st'))

/-! ## Email handler (`authl/handlers/email_addr.py`) -/

/-- The value stored by `EmailAddress.initiate_auth`:
`(dest_addr, redir, time.time())`. -/
structure EmailTok where
  addr : String
  redir : String
  when : Nat
deriving DecidableEq, Repr

/-- `EmailAddress` configuration: the Notify client data and
`expires_time or 900`. -/
structure EmailCfg where
  cdata : String
  lifetime : Nat
deriving DecidableEq, Repr

/-- Mutable state of an `EmailAddress` handler over a dict-backed token
store: the token store, the `_pending` map (lower-cased address to token),
and the number of times the injected `sendmail` function has been called. -/
structure EmailState where
  tokens : Store EmailTok
  pending : Store String
  sent : Nat
deriving DecidableEq, Repr

/-- Strip a literal prefix from a character list, or fail. -/
def dropPrefixChars : List Char → List Char → Option (List Char)
  | [], cs => some cs
  | _ :: _, [] => none
  | p :: ps, c :: cs => if c = p then dropPrefixChars ps cs else none

/-- `urllib.parse.urlparse(id_url)` restricted to what
`EmailAddress.initiate_auth` uses: the path of a `mailto:` URL, `none`
when the scheme is not `mailto`. -/
def mailtoPath (s : String) : Option String :=
  (dropPrefixChars "mailto:".data s.data).map fun r => ⟨r⟩

/-- Tail of `EmailAddress.initiate_auth` once a send is decided: store
`(dest, redir, now)` under a fresh key, record the pending token for the
address, hand the message to `sendmail`, return `Notify`. -/
def Email.sendNew (cfg : EmailCfg) (keygen : EmailTok → String) (now : Nat)
    (dest redir : String) (st : EmailState) : Disposition × EmailState :=
  let v : EmailTok := ⟨dest, redir, now⟩
  let k := keygen v
  (.notify cfg.cdata,
   { tokens := (k, v) :: st.tokens,
     pending := (dest, k) :: st.pending,
     sent := st.sent + 1 })

/-- `EmailAddress.initiate_auth(id_url, callback_uri, redir)` at time
`now`. `validEmail` models the third-party `validate_email` check and
`keygen` the dict store's key generator. -/
def Email.initiate_auth (cfg : EmailCfg) (validEmail : String → Bool)
    (keygen : EmailTok → String) (now : Nat)
    (idUrl redir : String) (st : EmailState) :
    Disposition × EmailState :=
  match mailtoPath idUrl with
  | none => (.error "Malformed email URL" (some redir), st)
  | some path =>
      if validEmail path = false then
        (.error "Malformed email URL" (some redir), st)
      else
        let dest := path.toLower
        match storeGet st.pending dest with
        | none => Email.sendNew cfg keygen now dest redir st
        | some ptok =>
            match storeGet st.tokens ptok with
            | some v =>
                if now ≤ v.when + cfg.lifetime then (.notify cfg.cdata, st)
                else Email.sendNew cfg keygen now dest redir
                  { st with pending := storeRemove st.pending dest }
            | none => Email.sendNew cfg keygen now dest redir
                  { st with pending := storeRemove st.pending dest }

/-- `EmailAddress.check_callback(url, get, data)` at time `now`: a GET
with `t` yields `NeedsPost`; a POST pops the token (`Invalid token` when
absent), clears the pending entry, checks the lifetime, and verifies. -/
def Email.check_callback (cfg : EmailCfg) (now : Nat) (url : String)
    (get data : Store String) (st : EmailState) :
    Disposition × EmailState :=
  match storeGet get "t" with
  | some tval => (.needsPost url "Complete your login" [("t", tval)], st)
  | none =>
      match storeGet data "t" with
      | none => (.error "Missing token" none, st)
      | some token =>
          if token = "" then (.error "Missing token" none, st)
          else
            match storePop st.tokens token with
            | (none, ts') =>
                (.error "Invalid token" (some ""), { st with tokens := ts' })
            | (some v, ts') =>
                let pending' := storeRemove st.pending v.addr
                if v.when + cfg.lifetime < now then
                  (.error "Login timed out" (some v.redir),
                   { st with tokens := ts', pending := pending' })
                else
                  (.verified ("mailto:" ++ v.addr) v.redir [("email", v.addr)],
                   { st with tokens := ts', pending := pending' })

/-! ## Fediverse handler (`authl/handlers/fediverse.py`) -/

/-- `Fediverse.Client`, as reconstructed from its stored
`(instance, params, secrets)` tuple; the OAuth endpoints are derived
from the instance URL. -/
structure FediClient where
  instanceUrl : String
  params : List (String × String)
  secrets : List (String × String)
deriving DecidableEq, Repr

def FediClient.tokenEndpoint (c : FediClient) : String :=
  c.instanceUrl ++ "/oauth/token"

def FediClient.revokeEndpoint (c : FediClient) : String :=
  c.instanceUrl ++ "/oauth/revoke"

/-- The value stored by `Fediverse.initiate_auth`:
`(client.to_tuple(), time.time(), redir)`. -/
structure FediToken where
  client : FediClient
  issuedAt : Nat
  redir : String
deriving DecidableEq, Repr

/-- `Fediverse` configuration: `timeout or 600`. -/
structure FediCfg where
  timeout : Nat
deriving DecidableEq, Repr

/-- External collaborators of `Fediverse.check_callback`: the
`urllib.parse` join/netloc library functions, the token-exchange POST,
the `verify_credentials` GET (instance URL and bearer header), and the
revocation POST. JSON bodies are string-keyed maps. -/
structure FediEnv where
  urljoin : String → String → String
  netloc : String → String
  tokenExchange : String → List (String × String) → List (String × String) →
    String → HttpResult (Store String)
  verifyCreds : String → String → HttpResult (Store String)
  revoke : String → List (String × String) → List (String × String) →
    String → HttpResult (Store String)

/-- `Fediverse._get_identity(client, auth_headers, redir)`: fetch
`verify_credentials`; non-200 is an Error; an invalid JSON body raises
(uncaught `ValueError`); a missing `url` member is an Error; a profile URL
whose joined netloc differs from the instance's netloc is the
"Domains do not match" Error; otherwise Verified. -/
def Fediverse.getIdentity (env : FediEnv) (client : FediClient)
    (bearer : String) (redir : String) : Except PyExc Disposition :=
  match env.verifyCreds client.instanceUrl bearer with
  | .netFail => .error .connectionError
  | .resp status body =>
      if status ≠ 200 then
        .ok (.error "Unable to get account credentials" (some redir))
      else
        match body with
        | none => .error .jsonError
        | some response =>
            match storeGet response "url" with
            | none => .ok (.error "No user URL provided" (some redir))
            | some u =>
                let idUrl := env.urljoin client.instanceUrl u
                if env.netloc idUrl ≠ env.netloc client.instanceUrl then
                  .ok (.error "Domains do not match" (some redir))
                else .ok (.verified idUrl redir response)

/-- The `try` block and revocation tail of `Fediverse.check_callback`:
`get['code']` (`KeyError` caught), the token-exchange POST (`requests`
exceptions escape), status/JSON checks (`Response.json()`'s `ValueError`
escapes), `response['access_token']` (`KeyError` caught), then
`_get_identity`; when the exchange response held an access token, the
revocation POST runs afterwards and its own network failure escapes. -/
def Fediverse.finishLogin (env : FediEnv) (get : Store String)
    (tok : FediToken) : Except PyExc Disposition :=
  match storeGet get "code" with
  | none => .ok (.error "Missing 'code'" (some tok.redir))
  | some code =>
      match env.tokenExchange tok.client.tokenEndpoint tok.client.params
          tok.client.secrets code with
      | .netFail => .error .connectionError
      | .resp status body =>
          if status ≠ 200 then
            .ok (.error "Could not retrieve access token" (some tok.redir))
          else
            match body with
            | none => .error .jsonError
            | some response =>
                match storeGet response "access_token" with
                | none =>
                    .ok (.error "Missing 'access_token'" (some tok.redir))
                | some accessToken =>
                    match Fediverse.getIdentity env tok.client
                        ("Bearer " ++ accessToken) tok.redir with
                    | .error e => .error e
                    | .ok result =>
                        match env.revoke tok.client.revokeEndpoint
                            tok.client.params tok.client.secrets accessToken with
                        | .netFail => .error .connectionError
                        | .resp _ _ => .ok result

/-- `Fediverse.check_callback(url, get, data)` over a dict-backed token
store, at time `now`. -/
def Fediverse.checkCallback (cfg : FediCfg) (env : FediEnv) (now : Nat)
    (get : Store String) (st : Store FediToken) :
    Except PyExc (Disposition × Store FediToken) :=
  match storeGet get "state" with
  | none => .ok (.error "No transaction ID provided" none, st)
  | some state =>
      if state = "" then .ok (.error "No transaction ID provided" none, st)
      else
      match storePop st state with
      | (none, st') => .ok (.error "Invalid transaction" (some ""), st')
      | (some tok, st') =>
          if tok.issuedAt + cfg.timeout < now then
            .ok (.error "Transaction timed out" (some tok.redir), st')
          else if (storeGet get "error").isSome then
            .ok (.error "Error signing into Fediverse" (some tok.redir), st')
          else
            (Fediverse.finishLogin env get tok).map (fun d => (d, st'))

/-! ## C2: replay rejection over a dict-backed token store -/

/-- C2: over a dict-backed token store, once `check_callback` has returned
Verified for state token `T` (which consumed `T` via `pop`), `T` is absent
from the store, and every subsequent `check_callback` with the same `T`
(and any clock, environment or configuration) returns the Error
disposition for an invalid token — never a second Verified. Stated for
`IndieAuth.check_callback` and for `EmailAddress.check_callback`. -/
theorem dict_store_replay_rejected :
    (∀ (cfg : IACfg) (env : IAEnv) (now : Nat) (get : Store String)
       (st : Store IAToken) (T idt rd : String)
       (pf : List (String × String)) (st1 : Store IAToken),
       storeGet get "state" = some T →
       IA.checkCallback cfg env now get st = .ok (.verified idt rd pf, st1) →
       storeGet st1 T = none
       ∧ ∀ (cfg₂ : IACfg) (env₂ : IAEnv) (now₂ : Nat) (get₂ : Store String)
           (st₂ : Store IAToken),
           storeGet get₂ "state" = some T → storeGet st₂ T = none →
           IA.checkCallback cfg₂ env₂ now₂ get₂ st₂
             = .ok (.error "Invalid token" (some ""), st₂))
    ∧ (∀ (cfg : EmailCfg) (now : Nat) (url : String) (get data : Store String)
       (tk idt rd : String) (pf : List (String × String))
       (st st1 : EmailState),
       storeGet get "t" = none →
       storeGet data "t" = some tk →
       Email.check_callback cfg now url get data st = (.verified idt rd pf, st1) →
       storeGet st1.tokens tk = none
       ∧ ∀ (cfg₂ : EmailCfg) (now₂ : Nat) (url₂ : String)
           (get₂ data₂ : Store String) (st₂ : EmailState),
           storeGet get₂ "t" = none → storeGet data₂ "t" = some tk →
           storeGet st₂.tokens tk = none →
           Email.check_callback cfg₂ now₂ url₂ get₂ data₂ st₂
             = (.error "Invalid token" (some ""), st₂)) := by
  constructor
  · intro cfg env now get st T idt rd pf st1 hT h2
    by_cases hTe : T = ""
    · exfalso
      simp only [IA.checkCallback, hT, if_pos hTe] at h2
      simp at h2
    · have hst1 : st1 = storeRemove st T := by
        cases hP : storeGet st T with
        | none =>
            simp only [IA.checkCallback, hT, if_neg hTe, storePop, hP] at h2
            simp at h2
        | some tok =>
            simp only [IA.checkCallback, hT, if_neg hTe, storePop, hP] at h2
            by_cases htime : tok.issuedAt + cfg.timeout < now
            · rw [if_pos htime] at h2; simp at h2
            · rw [if_neg htime] at h2
              cases hE : IA.exchange cfg env get tok with
              | error e => rw [hE] at h2; simp [Except.map] at h2
              | ok d =>
                  rw [hE] at h2
                  simp only [Except.map, Except.ok.injEq, Prod.mk.injEq] at h2
                  exact h2.2.symm
      refine ⟨hst1 ▸ storeGet_remove_self st T, ?_⟩
      intro cfg₂ env₂ now₂ get₂ st₂ hT₂ habs
      simp only [IA.checkCallback, hT₂, if_neg hTe, storePop, habs]
      rw [storeRemove_absent st₂ T habs]
  · intro cfg now url get data tk idt rd pf st st1 hg hd h2
    by_cases htk : tk = ""
    · simp only [Email.check_callback, hg, hd, storePop, if_pos htk] at h2
      simp at h2
    · have hst1 : st1.tokens = storeRemove st.tokens tk := by
        cases hP : storeGet st.tokens tk with
        | none =>
            simp only [Email.check_callback, hg, hd, storePop, if_neg htk,
              hP] at h2
            simp at h2
        | some v =>
            simp only [Email.check_callback, hg, hd, storePop, if_neg htk,
              hP] at h2
            by_cases htime : v.when + cfg.lifetime < now
            · rw [if_pos htime] at h2; simp at h2
            · rw [if_neg htime] at h2
              simp only [Prod.mk.injEq] at h2
              rw [← h2.2]
      refine ⟨hst1 ▸ storeGet_remove_self st.tokens tk, ?_⟩
      intro cfg₂ now₂ url₂ get₂ data₂ st₂ hg₂ hd₂ habs
      simp only [Email.check_callback, hg₂, hd₂, storePop, habs, if_neg htk]
      rw [storeRemove_absent st₂.tokens tk habs]

/-- A concrete IndieAuth configuration. -/
def iaCfg0 : IACfg := ⟨"https://client.example/", 600⟩

/-- A concrete stored IndieAuth transaction issued at t = 100. -/
def iaTok0 : IAToken :=
  ⟨"https://user.example/", "https://auth.example/endpoint",
   "https://client.example/cb", "v", 100, "/dest"⟩

/-- A concrete environment whose code exchange succeeds with
`me` equal to the requested identity. -/
def iaEnvOk : IAEnv :=
  ⟨discConst,
   fun _ _ _ _ _ => .resp 200 (some ⟨some "https://user.example/", none⟩),
   fun _ _ => []⟩

/-- C2 witness: a concrete successful IndieAuth callback followed by a
replay of the same state token. -/
theorem dict_store_replay_rejected_witness :
    storeGet ([] : Store IAToken) "T" = none
    ∧ IA.checkCallback iaCfg0 iaEnvOk 200 [("state", "T"), ("code", "c")] []
        = .ok (.error "Invalid token" (some ""), []) := by
  have h1 := dict_store_replay_rejected.1 iaCfg0 iaEnvOk 200
    [("state", "T"), ("code", "c")] [("T", iaTok0)]
    "T" "https://user.example/" "/dest" [] []
    (by decide) (by decide)
  exact ⟨h1.1, h1.2 iaCfg0 iaEnvOk 200 [("state", "T"), ("code", "c")] []
    (by decide) h1.1⟩

/-! ## C3: application-level timeout enforcement -/

/-- C3: for each handler (IndieAuth, Email, Fediverse), when the stored
transaction was created at `t0` and the callback is processed at a time
strictly greater than `t0` plus the handler's timeout, the callback
returns an Error whose message contains "timed out" and which carries the
transaction's stored redirect destination — the check is the handler's
own, performed on the still-present entry whatever the store's expiry. -/
theorem handler_timeout_enforced :
    (∀ (cfg : IACfg) (env : IAEnv) (now : Nat) (get : Store String)
       (st : Store IAToken) (T : String) (tok : IAToken),
       storeGet get "state" = some T → T ≠ "" → storeGet st T = some tok →
       tok.issuedAt + cfg.timeout < now →
       IA.checkCallback cfg env now get st
         = .ok (.error "Transaction timed out" (some tok.redir),
                storeRemove st T)
       ∧ substringOf "timed out" "Transaction timed out")
    ∧ (∀ (cfg : EmailCfg) (now : Nat) (url : String) (get data : Store String)
       (tk : String) (v : EmailTok) (st : EmailState),
       storeGet get "t" = none → storeGet data "t" = some tk → tk ≠ "" →
       storeGet st.tokens tk = some v →
       v.when + cfg.lifetime < now →
       Email.check_callback cfg now url get data st
         = (.error "Login timed out" (some v.redir),
            { st with tokens := storeRemove st.tokens tk,
                      pending := storeRemove st.pending v.addr })
       ∧ substringOf "timed out" "Login timed out")
    ∧ (∀ (cfg : FediCfg) (env : FediEnv) (now : Nat) (get : Store String)
       (st : Store FediToken) (T : String) (tok : FediToken),
       storeGet get "state" = some T → T ≠ "" → storeGet st T = some tok →
       tok.issuedAt + cfg.timeout < now →
       Fediverse.checkCallback cfg env now get st
         = .ok (.error "Transaction timed out" (some tok.redir),
                storeRemove st T)
       ∧ substringOf "timed out" "Transaction timed out") := by
  refine ⟨?_, ?_, ?_⟩
  · intro cfg env now get st T tok hT hTe hP htime
    refine ⟨?_, "Transaction ", "", by decide⟩
    simp only [IA.checkCallback, hT, if_neg hTe, storePop, hP, if_pos htime]
  · intro cfg now url get data tk v st hg hd htk hP htime
    refine ⟨?_, "Login ", "", by decide⟩
    simp only [Email.check_callback, hg, hd, storePop, if_neg htk, hP,
      if_pos htime]
  · intro cfg env now get st T tok hT hTe hP htime
    refine ⟨?_, "Transaction ", "", by decide⟩
    simp only [Fediverse.checkCallback, hT, if_neg hTe, storePop, hP,
      if_pos htime]

/-- C3 witness: the IndieAuth transaction issued at t = 100 with timeout
600, processed at t = 701, times out and reports the stored redirect. -/
theorem handler_timeout_enforced_witness :
    IA.checkCallback iaCfg0 iaEnvOk 701 [("state", "T")] [("T", iaTok0)]
      = .ok (.error "Transaction timed out" (some "/dest"), [])
    ∧ substringOf "timed out" "Transaction timed out" :=
  handler_timeout_enforced.1 iaCfg0 iaEnvOk 701 [("state", "T")]
    [("T", iaTok0)] "T" iaTok0 (by decide) (by decide) (by decide) (by decide)

/-! ## C4: network exceptions escaping `check_callback` -/

/-- An IndieAuth environment whose code-exchange POST raises a
`requests` connection error (authorization endpoint unreachable). -/
def iaEnvNetFail : IAEnv :=
  ⟨discConst, fun _ _ _ _ _ => .netFail, fun _ _ => []⟩

/-- A concrete Fediverse configuration, client and stored transaction. -/
def fediCfg0 : FediCfg := ⟨600⟩

def fediClient0 : FediClient := ⟨"https://inst.example", [], []⟩

def fediTok0 : FediToken := ⟨fediClient0, 100, "/dest"⟩

/-- A Fediverse environment whose token-exchange POST raises a
`requests` connection error. -/
def fediEnvNetFail : FediEnv :=
  ⟨fun _ u => u, fun u => u, fun _ _ _ _ => .netFail,
   fun _ _ => .netFail, fun _ _ _ _ => .netFail⟩

/-- C4 evaluation: on a live, un-expired transaction whose provider is
unreachable during the token exchange, `IndieAuth.check_callback` and
`Fediverse.check_callback` let the `requests` connection error escape
(`Except.error`) instead of returning an Error disposition, because their
`try` blocks only catch `KeyError`/`ValueError`. -/
theorem checkCallback_netfail_escapes :
    IA.checkCallback iaCfg0 iaEnvNetFail 200
      [("state", "T"), ("code", "c")] [("T", iaTok0)]
      = .error .connectionError
    ∧ Fediverse.checkCallback fediCfg0 fediEnvNetFail 200
      [("state", "T"), ("code", "c")] [("T", fediTok0)]
      = .error .connectionError := by
  constructor
  · decide
  · decide

/-! ## Token store abstraction (`authl/tokens.py`) -/

/-- The `itsdangerous.URLSafeSerializer` collaborator: `dumps` encodes a
value into a signed string, `loads` decodes it, failing (`BadData`,
surfaced by `Serializer.get` as `KeyError`) on an invalid token. -/
structure SerLib (V : Type) where
  dumps : V → String
  loads : String → Option V

/-- The abstract `TokenStore` interface over an explicit state `σ`:
`put` generates a token and a new state, `get` retrieves (`none` standing
for `KeyError`), `remove` drops the key from the backing store. -/
structure TokenStoreOps (V σ : Type) where
  put : σ → V → String × σ
  get : σ → String → Option V
  remove : σ → String → σ

/-- `TokenStore.pop`: `get` inside `try`, `remove` in the `finally`, so
the removal happens whether or not the retrieval succeeded. -/
def TokenStoreOps.pop {V σ : Type} (ts : TokenStoreOps V σ) (s : σ)
    (k : String) : Option V × σ :=
  (ts.get s k, ts.remove s k)

/-- `tokens.DictStore` as a `TokenStoreOps` over the dict state. -/
def DictStoreOps (V : Type) (keygen : V → String) :
    TokenStoreOps V (Store V) :=
  ⟨storePut keygen, storeGet, storeRemove⟩

/-- `tokens.Serializer` as a `TokenStoreOps`: the token IS the signed
serialization of the value, there is no backing state (`Unit`), and
`remove` is `pass`. -/
def SerializerOps (V : Type) (lib : SerLib V) : TokenStoreOps V Unit :=
  ⟨fun s v => (lib.dumps v, s), fun _ k => lib.loads k, fun s _ => s⟩

/-- One call against a token store, for reasoning about the state after an
arbitrary sequence of operations. -/
inductive TSOp (V : Type) where
  | put (v : V)
  | get (k : String)
  | remove (k : String)
  | pop (k : String)

/-- The state after performing one operation. -/
def applyOp {V σ : Type} (ts : TokenStoreOps V σ) (s : σ) : TSOp V → σ
  | .put v => (ts.put s v).2
  | .get _ => s
  | .remove k => ts.remove s k
  | .pop k => (ts.pop s k).2

/-- The state after performing a sequence of operations. -/
def applyOps {V σ : Type} (ts : TokenStoreOps V σ) (s : σ)
    (ops : List (TSOp V)) : σ :=
  ops.foldl (applyOp ts) s

/-- C5: for `tokens.Serializer` (given the serializer library's round-trip
property), `put v` yields the same token string from any store state;
`remove` is a no-op on the state; and after any sequence of further
operations — in particular any number of `remove`s or `pop`s — `get` and
`pop` on the token derived from `v` still return `v`: the backend cannot
revoke a token, so at-most-once consumption is not enforced. -/
theorem serializer_not_revocable (V : Type) (lib : SerLib V)
    (hrt : ∀ v : V, lib.loads (lib.dumps v) = some v) (v : V) (k : String)
    (s : Unit) (ops : List (TSOp V)) :
    ((SerializerOps V lib).put s v).1 = lib.dumps v
    ∧ (∀ s' : Unit, ((SerializerOps V lib).put s' v).1
        = ((SerializerOps V lib).put s v).1)
    ∧ (SerializerOps V lib).remove s k = s
    ∧ (SerializerOps V lib).get (applyOps (SerializerOps V lib) s ops)
        (lib.dumps v) = some v
    ∧ ((SerializerOps V lib).pop (applyOps (SerializerOps V lib) s ops)
        (lib.dumps v)).1 = some v :=
  ⟨rfl, fun _ => rfl, rfl, hrt v, hrt v⟩

/-- C5 witness: the identity serializer over strings, with a remove and a
pop between the `put` and the final retrievals. -/
theorem serializer_not_revocable_witness :
    ((SerializerOps String ⟨id, some⟩).put () "value").1 = "value"
    ∧ (SerializerOps String ⟨id, some⟩).remove () "value" = ()
    ∧ (SerializerOps String ⟨id, some⟩).get
        (applyOps (SerializerOps String ⟨id, some⟩) ()
          [.remove "value", .pop "value"]) "value" = some "value" := by
  have h := serializer_not_revocable String ⟨id, some⟩ (fun _ => rfl)
    "value" "value" () [.remove "value", .pop "value"]
  exact ⟨h.1, h.2.2.1, h.2.2.2.1⟩

/-- C6: `pop` returns exactly what `get` returns (with `none` standing for
the propagated `KeyError`) and performs `remove` in both the success and
the failure case — for any `TokenStoreOps`, this is the definition of the
base-class `pop`; for the dict-backed store the key is consequently absent
from the backing store after `pop`, and removing an absent key leaves the
store unchanged (an idempotent no-op rather than an error). -/
theorem token_store_pop_contract :
    (∀ (V σ : Type) (ts : TokenStoreOps V σ) (s : σ) (k : String),
       (ts.pop s k).1 = ts.get s k ∧ (ts.pop s k).2 = ts.remove s k)
    ∧ (∀ (V : Type) (keygen : V → String) (s : Store V) (k : String),
       storeGet ((DictStoreOps V keygen).pop s k).2 k = none)
    ∧ (∀ (V : Type) (s : Store V) (k : String),
       storeGet s k = none → storeRemove s k = s) := by
  refine ⟨fun V σ ts s k => ⟨rfl, rfl⟩, ?_, fun V s k h => storeRemove_absent s k h⟩
  intro V keygen s k
  exact storeGet_remove_self s k

/-- C6 witness: a concrete dict store holding one entry; popping it
returns the value, empties the store, and removing the now-absent key is
a no-op. -/
theorem token_store_pop_contract_witness :
    ((DictStoreOps Nat (fun _ => "k")).pop [("k", 7)] "k").1 = some 7
    ∧ storeGet (((DictStoreOps Nat (fun _ => "k")).pop [("k", 7)] "k").2) "k"
        = none
    ∧ storeRemove ([] : Store Nat) "missing" = [] := by
  refine ⟨?_, token_store_pop_contract.2.1 Nat (fun _ => "k") [("k", 7)] "k",
    token_store_pop_contract.2.2 Nat [] "missing" (by decide)⟩
  have h := (token_store_pop_contract.1 Nat (Store Nat)
    (DictStoreOps Nat (fun _ => "k")) [("k", 7)] "k").1
  rw [h]
  decide

/-! ## C7: Fediverse domain-mismatch rejection -/

/-- C7: whenever the provider's `verify_credentials` response carries a
profile URL whose netloc, after joining against the instance URL, differs
from the instance's netloc, `_get_identity` returns the
"Domains do not match" Error and never Verified; consequently
`check_callback` returns that Error for such a response. -/
theorem fediverse_domain_mismatch_rejected :
    (∀ (env : FediEnv) (client : FediClient) (bearer redir u : String)
       (response : Store String),
       env.verifyCreds client.instanceUrl bearer = .resp 200 (some response) →
       storeGet response "url" = some u →
       env.netloc (env.urljoin client.instanceUrl u)
         ≠ env.netloc client.instanceUrl →
       Fediverse.getIdentity env client bearer redir
         = .ok (.error "Domains do not match" (some redir))
       ∧ ∀ (idt rd : String) (pf : List (String × String)),
           Fediverse.getIdentity env client bearer redir
             ≠ .ok (.verified idt rd pf))
    ∧ (∀ (cfg : FediCfg) (env : FediEnv) (now : Nat) (get : Store String)
       (st : Store FediToken) (T code accessToken u : String)
       (tok : FediToken) (exbody response : Store String) (rstatus : Nat)
       (rbody : Option (Store String)),
       storeGet get "state" = some T → T ≠ "" → storeGet st T = some tok →
       ¬ tok.issuedAt + cfg.timeout < now →
       storeGet get "error" = none →
       storeGet get "code" = some code →
       env.tokenExchange tok.client.tokenEndpoint tok.client.params
         tok.client.secrets code = .resp 200 (some exbody) →
       storeGet exbody "access_token" = some accessToken →
       env.verifyCreds tok.client.instanceUrl ("Bearer " ++ accessToken)
         = .resp 200 (some response) →
       storeGet response "url" = some u →
       env.netloc (env.urljoin tok.client.instanceUrl u)
         ≠ env.netloc tok.client.instanceUrl →
       env.revoke tok.client.revokeEndpoint tok.client.params
         tok.client.secrets accessToken = .resp rstatus rbody →
       Fediverse.checkCallback cfg env now get st
         = .ok (.error "Domains do not match" (some tok.redir),
                storeRemove st T)) := by
  constructor
  · intro env client bearer redir u response hvc hurl hnl
    have heq : Fediverse.getIdentity env client bearer redir
        = .ok (.error "Domains do not match" (some redir)) := by
      simp only [Fediverse.getIdentity, hvc, hurl]
      rw [if_neg (show ¬((200 : Nat) ≠ 200) by decide), if_pos hnl]
    exact ⟨heq, fun idt rd pf h => by rw [heq] at h; simp at h⟩
  · intro cfg env now get st T code accessToken u tok exbody response
      rstatus rbody hT hTe hP htime herr hcode hex hat hvc hurl hnl hrev
    simp only [Fediverse.checkCallback, hT, if_neg hTe, storePop, hP,
      if_neg htime,
      herr, Option.isSome_none, Bool.false_eq_true, if_false,
      Fediverse.finishLogin, hcode, hex]
    rw [if_neg (show ¬((200 : Nat) ≠ 200) by decide)]
    simp only [hat, Fediverse.getIdentity, hvc, hurl]
    rw [if_neg (show ¬((200 : Nat) ≠ 200) by decide), if_pos hnl]
    simp only [hrev, Except.map]

/-- C7 witness: a concrete instance whose `verify_credentials` response
claims a profile on a different domain is rejected end-to-end. -/
theorem fediverse_domain_mismatch_rejected_witness :
    Fediverse.checkCallback fediCfg0
      ⟨fun _ u => u, fun u => u,
       fun _ _ _ _ => .resp 200 (some [("access_token", "at")]),
       fun _ _ => .resp 200 (some [("url", "https://evil.example/@mal")]),
       fun _ _ _ _ => .resp 200 none⟩
      200 [("state", "T"), ("code", "c")] [("T", fediTok0)]
      = .ok (.error "Domains do not match" (some "/dest"), []) :=
  fediverse_domain_mismatch_rejected.2 fediCfg0
    ⟨fun _ u => u, fun u => u,
     fun _ _ _ _ => .resp 200 (some [("access_token", "at")]),
     fun _ _ => .resp 200 (some [("url", "https://evil.example/@mal")]),
     fun _ _ _ _ => .resp 200 none⟩
    200 [("state", "T"), ("code", "c")] [("T", fediTok0)]
    "T" "c" "at" "https://evil.example/@mal" fediTok0
    [("access_token", "at")] [("url", "https://evil.example/@mal")]
    200 none
    (by decide) (by decide) (by decide) (by decide) (by decide) (by decide)
    (by decide) (by decide) (by decide) (by decide) (by decide) (by decide)

/-! ## WebFinger resolver (`authl/webfinger.py`) -/

/-- Split a character list at the first occurrence of `c`: the regex
fragment `([^@]+)@` of `get_profiles` (with nonemptiness checked by the
caller). -/
def splitFirstAt (c : Char) : List Char → Option (List Char × List Char)
  | [] => none
  | x :: xs =>
      if x = c then some ([], xs)
      else
        match splitFirstAt c xs with
        | some (a, b) => some (x :: a, b)
        | none => none

/-- `re.match(r'(@|acct:)([^@]+)@(.*)$', url)` from `get_profiles`:
an `@` or `acct:` prefix, then a nonempty run of non-`@` characters
(the user), an `@`, and the rest (the domain). -/
def parseWF : List Char → Option (List Char × List Char)
  | '@' :: rest =>
      (splitFirstAt '@' rest).bind fun p =>
        if p.1 = [] then none else some p
  | 'a' :: 'c' :: 'c' :: 't' :: ':' :: rest =>
      (splitFirstAt '@' rest).bind fun p =>
        if p.1 = [] then none else some p
  | _ => none

/-- The webfinger-address parse as a function on strings. -/
def parseWebfinger (url : String) : Option (String × String) :=
  (parseWF url.data).map fun p => (⟨p.1⟩, ⟨p.2⟩)

/-- `html.escape(s)` (with its default quoting) character by character. -/
def htmlEscapeChar (c : Char) : List Char :=
  if c = '&' then "&amp;".data
  else if c = '<' then "&lt;".data
  else if c = '>' then "&gt;".data
  else if c = '"' then "&quot;".data
  else if c = '\'' then "&#x27;".data
  else [c]

/-- `html.escape`, used to build the webfinger `resource` query value. -/
def htmlEscape (s : String) : String := ⟨(s.data.map htmlEscapeChar).flatten⟩

/-- A `links` entry of a webfinger JSON profile; `none` fields model
missing members (whose access raises `KeyError`). -/
structure WFLink where
  rel : Option String
  href : Option String
deriving DecidableEq, Repr

/-- The HTTP collaborator of `get_profiles`: the GET against
`https://{domain}/.well-known/webfinger?resource={resource}`, keyed here
by domain and escaped resource. -/
structure WFEnv where
  query : String → String → HttpResult (List WFLink)

/-- The set comprehension over `profile['links']`; `none` models the
`KeyError` of a missing `rel`/`href` member (caught by the broad
`except`). -/
def extractProfileLinks : List WFLink → Option (Finset String)
  | [] => some ∅
  | l :: ls =>
      match l.rel with
      | none => none
      | some r =>
          if r = "http://webfinger.net/rel/profile-page" ∨ r = "profile"
              ∨ r = "self" then
            match l.href with
            | none => none
            | some h => (extractProfileLinks ls).map (insert h)
          else extractProfileLinks ls

/-- `authl.webfinger.get_profiles(url)`: parse the webfinger address,
query the well-known endpoint, fall back to `https://domain/@user` on a
non-2xx status, and otherwise collect the profile-page/profile/self link
targets; any exception inside the `try` yields the empty set. -/
def get_profiles (env : WFEnv) (url : String) : Finset String :=
  match parseWebfinger url with
  | none => ∅
  | some (user, domain) =>
      let resource := htmlEscape ("acct:" ++ user ++ "@" ++ domain)
      match env.query domain resource with
      | .netFail => ∅
      | .resp status body =>
          if ¬(200 ≤ status ∧ status < 300) then
            {"https://" ++ domain ++ "/@" ++ user}
          else
            match body with
            | none => ∅
            | some links =>
                match extractProfileLinks links with
                | none => ∅
                | some s => s

theorem splitFirstAt_append (c : Char) (u d : List Char) (h : c ∉ u) :
    splitFirstAt c (u ++ c :: d) = some (u, d) := by
  induction u with
  | nil => simp [splitFirstAt]
  | cons x xs ih =>
      have hx : x ≠ c := fun hh => h (hh ▸ List.mem_cons_self x xs)
      have hxs : c ∉ xs := fun hh => h (List.mem_cons_of_mem x hh)
      simp only [List.cons_append, splitFirstAt, if_neg hx, List.append_eq,
        ih hxs]

theorem parseWebfinger_at_form (user domain : String) (hu : user ≠ "")
    (hat : '@' ∉ user.data) :
    parseWebfinger ("@" ++ user ++ "@" ++ domain) = some (user, domain) := by
  have hdata : ("@" ++ user ++ "@" ++ domain).data
      = '@' :: (user.data ++ '@' :: domain.data) := by
    simp [String.data_append]
  have hne : user.data ≠ [] := fun hh => hu (by cases user; simp_all)
  unfold parseWebfinger
  rw [hdata]
  simp only [parseWF, splitFirstAt_append '@' user.data domain.data hat]
  simp [hne]

/-- C8: for every user (nonempty, free of `@`) and domain, when the
webfinger query for the escaped `acct:user@domain` resource returns a
status outside 2xx, `get_profiles('@user@domain')` is exactly the
singleton `{https://domain/@user}`. -/
theorem webfinger_fallback (env : WFEnv) (user domain : String)
    (status : Nat) (body : Option (List WFLink))
    (hu : user ≠ "") (hat : '@' ∉ user.data)
    (hq : env.query domain (htmlEscape ("acct:" ++ user ++ "@" ++ domain))
      = .resp status body)
    (hs : ¬(200 ≤ status ∧ status < 300)) :
    get_profiles env ("@" ++ user ++ "@" ++ domain)
      = {"https://" ++ domain ++ "/@" ++ user} := by
  simp only [get_profiles, parseWebfinger_at_form user domain hu hat, hq,
    if_pos hs]

/-- C8 witness: a 404 from `example.com`'s webfinger endpoint for
`acct:alice@example.com` falls back to the conventional profile URL. -/
theorem webfinger_fallback_witness :
    get_profiles ⟨fun _ _ => .resp 404 none⟩ "@alice@example.com"
      = {"https://example.com/@alice"} :=
  webfinger_fallback ⟨fun _ _ => .resp 404 none⟩ "alice" "example.com"
    404 none (by decide) (by decide) rfl (by decide)

/-! ## C9: email anti-abuse guard -/

/-- C9: starting from a state with no pending token for the (lower-cased)
address, a first `initiate_auth` sends the email (one send) and returns
Notify; a second call for the same address while the pending token is
unexpired returns the same Notify with the state — token store, pending
map and send count — completely unchanged; and a third call made after the
pending token has been independently removed from the token store sends a
second email. -/
theorem email_initiate_anti_abuse (cfg : EmailCfg) (ve : String → Bool)
    (keygen : EmailTok → String) (now1 now2 now3 : Nat)
    (idUrl redir path : String) (st0 : EmailState)
    (hp : mailtoPath idUrl = some path) (hv : ve path = true)
    (hpend : storeGet st0.pending path.toLower = none)
    (hw : now2 ≤ now1 + cfg.lifetime) :
    let r1 := Email.initiate_auth cfg ve keygen now1 idUrl redir st0
    let st2 : EmailState :=
      { r1.2 with
        tokens := storeRemove r1.2.tokens (keygen ⟨path.toLower, redir, now1⟩) }
    let r3 := Email.initiate_auth cfg ve keygen now3 idUrl redir st2
    r1.1 = .notify cfg.cdata
    ∧ r1.2.sent = st0.sent + 1
    ∧ Email.initiate_auth cfg ve keygen now2 idUrl redir r1.2
        = (.notify cfg.cdata, r1.2)
    ∧ r3.1 = .notify cfg.cdata
    ∧ r3.2.sent = st0.sent + 2 := by
  have h1 : Email.initiate_auth cfg ve keygen now1 idUrl redir st0
      = (.notify cfg.cdata,
         { tokens := (keygen ⟨path.toLower, redir, now1⟩,
             (⟨path.toLower, redir, now1⟩ : EmailTok)) :: st0.tokens,
           pending := (path.toLower, keygen ⟨path.toLower, redir, now1⟩)
             :: st0.pending,
           sent := st0.sent + 1 }) := by
    rw [Email.initiate_auth.eq_def, hp]
    simp only [hv, Bool.true_eq_false, if_false, hpend, Email.sendNew]
  have hpget : storeGet ((path.toLower, keygen ⟨path.toLower, redir, now1⟩)
      :: st0.pending) path.toLower = some (keygen ⟨path.toLower, redir, now1⟩) := by
    simp [storeGet]
  have htget : storeGet ((keygen ⟨path.toLower, redir, now1⟩,
      (⟨path.toLower, redir, now1⟩ : EmailTok)) :: st0.tokens)
      (keygen ⟨path.toLower, redir, now1⟩)
      = some ⟨path.toLower, redir, now1⟩ := by
    simp [storeGet]
  refine ⟨by rw [h1], by rw [h1], ?_, ?_, ?_⟩
  · rw [h1]
    rw [Email.initiate_auth.eq_def, hp]
    simp only [hv, Bool.true_eq_false, if_false, hpget, htget]
    rw [if_pos hw]
  · simp only [h1]
    rw [Email.initiate_auth.eq_def, hp]
    simp only [hv, Bool.true_eq_false, if_false, hpget, storeGet_remove_self]
    simp [Email.sendNew]
  · simp only [h1]
    rw [Email.initiate_auth.eq_def, hp]
    simp only [hv, Bool.true_eq_false, if_false, hpget, storeGet_remove_self]
    simp [Email.sendNew]

/-- C9 witness: a concrete run — send, suppressed resend inside the
window, and a second send after the token's independent removal. -/
theorem email_initiate_anti_abuse_witness :
    (Email.initiate_auth ⟨"check your email", 900⟩ (fun _ => true)
        (fun v => toString v.when) 100 "mailto:User@example.com" "/dest"
        ⟨[], [], 0⟩).1 = .notify "check your email"
    ∧ (Email.initiate_auth ⟨"check your email", 900⟩ (fun _ => true)
        (fun v => toString v.when) 100 "mailto:User@example.com" "/dest"
        ⟨[], [], 0⟩).2.sent = 1 := by
  have h := email_initiate_anti_abuse ⟨"check your email", 900⟩
    (fun _ => true) (fun v => toString v.when) 100 500 2000
    "mailto:User@example.com" "/dest" "User@example.com" ⟨[], [], 0⟩
    (by decide) rfl (by decide) (by decide)
  exact ⟨h.1, h.2.1⟩

/-! ## C10: IndieAuth refuses the Serializer token store -/

/-- The token-store argument of `IndieAuth.__init__`, tagged by concrete
class for the `isinstance(token_store, tokens.Serializer)` check. -/
inductive AnyTokenStore (V : Type) where
  | dictStore (keygen : V → String) (store : Store V)
  | serializer (lib : SerLib V)

/-- `isinstance(token_store, tokens.Serializer)`. -/
def AnyTokenStore.isSerializer {V : Type} : AnyTokenStore V → Bool
  | .serializer _ => true
  | _ => false

/-- Python's `x or dfl` for an optional integer (`0` and `None` are both
falsy). -/
def pyOrDefault (t : Option Nat) (dfl : Nat) : Nat :=
  match t with
  | some n => if n = 0 then dfl else n
  | none => dfl

/-- `IndieAuth.__init__(client_id, token_store, timeout)`: record the
configuration (`timeout or 600`), then raise `ValueError` when the token
store is a `tokens.Serializer`. -/
def IndieAuth.init (V : Type) (clientId : String)
    (tokenStore : AnyTokenStore V) (timeout : Option Nat) :
    Except String (IACfg × AnyTokenStore V) :=
  let cfg : IACfg := ⟨clientId, pyOrDefault timeout 600⟩
  if tokenStore.isSerializer then
    .error "Cannot use tokens.Serializer with IndieAuth"
  else .ok (cfg, tokenStore)

/-- C10: constructing an IndieAuth handler over a `tokens.Serializer`
raises `ValueError` for every client_id and timeout; conversely any
successfully constructed handler holds a non-Serializer store. -/
theorem indieauth_rejects_serializer :
    (∀ (V : Type) (clientId : String) (lib : SerLib V)
       (timeout : Option Nat),
       IndieAuth.init V clientId (.serializer lib) timeout
         = .error "Cannot use tokens.Serializer with IndieAuth")
    ∧ (∀ (V : Type) (clientId : String) (ts : AnyTokenStore V)
       (timeout : Option Nat) (r : IACfg × AnyTokenStore V),
       IndieAuth.init V clientId ts timeout = .ok r →
       ts.isSerializer = false) := by
  constructor
  · intro V cid lib t; rfl
  · intro V cid ts t r h
    by_cases hs : ts.isSerializer = true
    · simp [IndieAuth.init, hs] at h
    · simpa using hs

/-- C10 witness: a dict-backed store is accepted and is indeed not a
Serializer. -/
theorem indieauth_rejects_serializer_witness :
    (AnyTokenStore.dictStore (fun _ => "k") ([] : Store Nat)).isSerializer
      = false :=
  indieauth_rejects_serializer.2 Nat "https://client.example/"
    (.dictStore (fun _ => "k") []) none
    (⟨"https://client.example/", 600⟩, .dictStore (fun _ => "k") []) rfl

end Authl
